import Mathlib

/-!
Shallow embedding of the approval workflow of the Kannammal Agro
repository: the authorization predicates of `core/models.py`
(`PriceSubmission.can_approve`, `UserProfile.is_admin`,
`UserProfile.is_business_head`), the approval service of
`core/services/approval_service.py` (`approve_submission`,
`cancel_approval`, `get_approvable_submissions`) and the `disapprove`
view of `core/views/approvals.py`.

Machine integers do not occur: all counters are Nat.  Firms and users
are identified by Nat ids; timestamps are abstracted to Nat.  The
Django `@transaction.atomic` decorator rolls back every mutation when
an exception escapes, so a service call is modelled as a pure function
returning `Except`: the `stored_after_*` functions give the state of
the submission row after the transaction (the input row on error, the
mutated row on success).  The `except Exception` clause at the end of
each service method merely re-wraps the raised `ApprovalError` with a
message prefix; it does not change which check failed, so errors are
modelled as an inductive of the distinct raise sites.
-/

namespace Agro

/-- `PriceSubmission.STATUS_CHOICES` in `core/models.py`. -/
inductive Status where
  | PENDING
  | APPROVED
  | CANCELLED
deriving DecidableEq, Repr

/-- An authenticated principal as the approval code reads it: the
`django.contrib.auth` user flag `is_superuser`, whether a
`UserProfile` row is attached (the `hasattr` probe for `profile`),
the optional firm of that profile, and membership in the
`BUSINESS_HEAD` and `ADMIN` role groups. -/
structure Actor where
  is_superuser : Bool
  has_profile : Bool
  firm : Option Nat
  business_head_group : Bool
  admin_group : Bool
deriving DecidableEq, Repr

/-- `UserProfile.is_business_head` (`core/models.py` line 122):
membership in the `BUSINESS_HEAD` group. -/
def is_business_head (u : Actor) : Bool :=
  u.business_head_group

/-- `UserProfile.is_admin` (`core/models.py` line 118): superuser or
membership in the `ADMIN` group. -/
def is_admin (u : Actor) : Bool :=
  u.is_superuser || u.admin_group

/-- The workflow fields of `PriceSubmission` (`core/models.py` lines
199-230) that the approval state machine reads or writes, plus the
firm the submission belongs to. -/
structure PriceSubmission where
  firm : Nat
  status : Status
  approved_by : Option Nat
  approved_at : Option Nat
  approval_version : Nat
deriving DecidableEq, Repr

/-- `PriceSubmission.can_approve` (`core/models.py` lines 288-297):
superusers always may; otherwise a user with a profile may iff they
are a business head.  The firm is not consulted here. -/
def can_approve (s : PriceSubmission) (user : Actor) : Bool :=
  if user.is_superuser then true
  else if user.has_profile then is_business_head user
  else false

/-- The distinct raise sites of `ApprovalService.approve_submission`
and `ApprovalService.cancel_approval`, and of the
`disapprove_submission` view. -/
inductive ApprovalError where
  /-- `Submission with ID ... not found` -/
  | notFound (id : Nat)
  /-- `You do not have permission to ...` (the permission message) -/
  | permissionDenied
  /-- `Expected version {expected}, current version {actual}` -/
  | versionConflict (expected : Nat) (actual : Nat)
  /-- `Submission is already approved` -/
  | alreadyApproved
  /-- `Can only cancel approved submissions` -/
  | notApproved
  /-- `You can only approve/cancel ... from your firm` -/
  | firmMismatch
  /-- `User profile not properly configured` -/
  | profileNotConfigured
  /-- accessing `request.user.profile` with no profile row raises -/
  | noProfile
deriving DecidableEq, Repr

/-- The optimistic-locking guard shared by both service methods
(`approval_service.py` lines 50-55 and 119-124): when an expected
version is supplied and differs from the stored one, fail with both
versions. -/
def check_version (expected : Option Nat) (actual : Nat) :
    Except ApprovalError Unit :=
  match expected with
  | some v =>
      if actual ≠ v then
        Except.error (ApprovalError.versionConflict v actual)
      else Except.ok ()
  | none => Except.ok ()

/-- The firm-access guard shared by both service methods
(`approval_service.py` lines 65-71 and 130-136): skipped for
superusers; a user with a profile and a set firm fails iff the firms
differ; any other user fails with the profile-configuration error. -/
def firm_check (s : PriceSubmission) (user : Actor) :
    Except ApprovalError Unit :=
  if user.is_superuser then Except.ok ()
  else
    match user.has_profile, user.firm with
    | true, some f =>
        if s.firm ≠ f then Except.error ApprovalError.firmMismatch
        else Except.ok ()
    | _, _ => Except.error ApprovalError.profileNotConfigured

/-- `ApprovalService.approve_submission` (`approval_service.py` lines
27-92) on the row-locked submission: permission, version, status and
firm checks in that order, then the mutation.  `approver_id` is the
id of `approved_by`; `now` abstracts `timezone.now()`.  A `CANCELLED`
status passes the status check (re-approval, logged only). -/
def approve_submission (submission : PriceSubmission) (approved_by : Actor)
    (approver_id : Nat) (now : Nat) (expected_version : Option Nat) :
    Except ApprovalError PriceSubmission :=
  if can_approve submission approved_by = false then
    Except.error ApprovalError.permissionDenied
  else
    match check_version expected_version submission.approval_version with
    | Except.error e => Except.error e
    | Except.ok _ =>
      if submission.status = Status.APPROVED then
        Except.error ApprovalError.alreadyApproved
      else
        match firm_check submission approved_by with
        | Except.error e => Except.error e
        | Except.ok _ =>
            Except.ok { submission with
              status := Status.APPROVED
              approved_by := some approver_id
              approved_at := some now
              approval_version := submission.approval_version + 1 }

/-- `ApprovalService.cancel_approval` (`approval_service.py` lines
96-157): mirrors `approve_submission` but the status check requires
`APPROVED`, and the mutation clears the approval fields. -/
def cancel_approval (submission : PriceSubmission) (cancelled_by : Actor)
    (expected_version : Option Nat) :
    Except ApprovalError PriceSubmission :=
  if can_approve submission cancelled_by = false then
    Except.error ApprovalError.permissionDenied
  else
    match check_version expected_version submission.approval_version with
    | Except.error e => Except.error e
    | Except.ok _ =>
      if submission.status ≠ Status.APPROVED then
        Except.error ApprovalError.notApproved
      else
        match firm_check submission cancelled_by with
        | Except.error e => Except.error e
        | Except.ok _ =>
            Except.ok { submission with
              status := Status.CANCELLED
              approved_by := none
              approved_at := none
              approval_version := submission.approval_version + 1 }

/-- The `disapprove_submission` view (`core/views/approvals.py` lines
88-129): reading `request.user.profile` requires a profile row; the
permission check is `is_admin() or is_business_head()` with no firm
comparison; the submission must currently be `APPROVED`; the mutation
resets the status to `PENDING` and clears the approval fields without
touching `approval_version`. -/
def disapprove_submission (submission : PriceSubmission) (user : Actor) :
    Except ApprovalError PriceSubmission :=
  if user.has_profile = false then
    Except.error ApprovalError.noProfile
  else if (is_admin user || is_business_head user) = false then
    Except.error ApprovalError.permissionDenied
  else if submission.status ≠ Status.APPROVED then
    Except.error ApprovalError.notApproved
  else
    Except.ok { submission with
      status := Status.PENDING
      approved_by := none
      approved_at := none }

/-- The submission row after the `approve_submission` transaction:
`@transaction.atomic` rolls the row back to its input state when the
call raises. -/
def stored_after_approve (submission : PriceSubmission) (approved_by : Actor)
    (approver_id : Nat) (now : Nat) (expected_version : Option Nat) :
    PriceSubmission :=
  match approve_submission submission approved_by approver_id now
      expected_version with
  | Except.ok s' => s'
  | Except.error _ => submission

/-- The submission row after the `cancel_approval` transaction. -/
def stored_after_cancel (submission : PriceSubmission) (cancelled_by : Actor)
    (expected_version : Option Nat) : PriceSubmission :=
  match cancel_approval submission cancelled_by expected_version with
  | Except.ok s' => s'
  | Except.error _ => submission

/-- The submission row after the `disapprove_submission` view: on any
early return with an error message the row is untouched. -/
def stored_after_disapprove (submission : PriceSubmission) (user : Actor) :
    PriceSubmission :=
  match disapprove_submission submission user with
  | Except.ok s' => s'
  | Except.error _ => submission

/-- `ApprovalService.get_approvable_submissions` (`approval_service.py`
lines 159-186) over an explicit list of stored submissions: no
profile row gives the empty queryset; superusers and admins see every
`PENDING` submission; business heads with a firm see the `PENDING`
submissions of that firm; everyone else gets the empty queryset. -/
def get_approvable_submissions (db : List PriceSubmission) (user : Actor) :
    List PriceSubmission :=
  if user.has_profile = false then []
  else if user.is_superuser || is_admin user then
    db.filter (fun s => decide (s.status = Status.PENDING))
  else if is_business_head user then
    match user.firm with
    | some f =>
        db.filter (fun s =>
          decide (s.status = Status.PENDING) && decide (s.firm = f))
    | none => []
  else []

/-- The three mutating operations of the approval state machine, as a
single step alphabet for the version-monotonicity claim. -/
inductive Op where
  | approveOp (actor : Actor) (actor_id : Nat) (now : Nat)
      (expected_version : Option Nat)
  | cancelOp (actor : Actor) (expected_version : Option Nat)
  | disapproveOp (actor : Actor)
deriving DecidableEq, Repr

/-- Run one state-machine operation; `none` when the call raised. -/
def run_op (s : PriceSubmission) (op : Op) : Option PriceSubmission :=
  match op with
  | Op.approveOp a i n ev => (approve_submission s a i n ev).toOption
  | Op.cancelOp a ev => (cancel_approval s a ev).toOption
  | Op.disapproveOp a => (disapprove_submission s a).toOption

/-! Concrete principals and submissions used by witnesses and
counterexamples. -/

/-- A business head of firm 1. -/
def bheadFirm1 : Actor :=
  { is_superuser := false, has_profile := true, firm := some 1
    business_head_group := true, admin_group := false }

/-- A business head whose profile has no firm set. -/
def bheadNoFirm : Actor :=
  { is_superuser := false, has_profile := true, firm := none
    business_head_group := true, admin_group := false }

/-- A superuser without a `UserProfile` row. -/
def superuserNoProfile : Actor :=
  { is_superuser := true, has_profile := false, firm := none
    business_head_group := false, admin_group := false }

/-- A superuser with a profile and no firm. -/
def superuserAdmin : Actor :=
  { is_superuser := true, has_profile := true, firm := none
    business_head_group := false, admin_group := false }

/-- A member of the `ADMIN` group who is neither a superuser nor a
business head. -/
def adminGroupOnly : Actor :=
  { is_superuser := false, has_profile := true, firm := none
    business_head_group := false, admin_group := true }

/-- A pending submission of firm 1 at version 0. -/
def subPending1 : PriceSubmission :=
  { firm := 1, status := Status.PENDING, approved_by := none
    approved_at := none, approval_version := 0 }

/-- A pending submission of firm 2 at version 0. -/
def subPending2 : PriceSubmission :=
  { firm := 2, status := Status.PENDING, approved_by := none
    approved_at := none, approval_version := 0 }

/-- An approved submission of firm 1 at version 3. -/
def subApproved1 : PriceSubmission :=
  { firm := 1, status := Status.APPROVED, approved_by := some 9
    approved_at := some 50, approval_version := 3 }

/-- A cancelled submission of firm 1 at version 2. -/
def subCancelled1 : PriceSubmission :=
  { firm := 1, status := Status.CANCELLED, approved_by := none
    approved_at := none, approval_version := 2 }

/-- A buyer of firm 1: profile present, no role group. -/
def buyerOnly : Actor :=
  { is_superuser := false, has_profile := true, firm := some 1
    business_head_group := false, admin_group := false }

/-- `subPending1` after approval by user 5 at time 10. -/
def subPending1Approved : PriceSubmission :=
  { firm := 1, status := Status.APPROVED, approved_by := some 5
    approved_at := some 10, approval_version := 1 }

/-! Helper lemmas about the guards, shared by the claim theorems. -/

/-- Omitted expected version: the guard always passes. -/
theorem check_version_none (a : Nat) : check_version none a = Except.ok () := rfl

/-- Matching expected version: the guard passes. -/
theorem check_version_some_eq (a : Nat) :
    check_version (some a) a = Except.ok () := by
  simp [check_version]

/-- Differing expected version: the guard fails with both versions. -/
theorem check_version_some_ne (v a : Nat) (h : a ≠ v) :
    check_version (some v) a = Except.error (ApprovalError.versionConflict v a) := by
  simp [check_version, h]

/-- The firm guard can only pass or fail with one of its two errors. -/
theorem firm_check_cases (s : PriceSubmission) (u : Actor) :
    firm_check s u = Except.ok () ∨
    firm_check s u = Except.error ApprovalError.firmMismatch ∨
    firm_check s u = Except.error ApprovalError.profileNotConfigured := by
  unfold firm_check
  split
  · exact Or.inl rfl
  · split
    · split
      · exact Or.inr (Or.inl rfl)
      · exact Or.inl rfl
    · exact Or.inr (Or.inr rfl)

/-- Superusers skip the firm guard. -/
theorem firm_check_superuser (s : PriceSubmission) (u : Actor)
    (h : u.is_superuser = true) : firm_check s u = Except.ok () := by
  simp [firm_check, h]

/-- A non-superuser with a profile and the matching firm passes. -/
theorem firm_check_same_firm (s : PriceSubmission) (u : Actor)
    (hsu : u.is_superuser = false) (hp : u.has_profile = true)
    (hf : u.firm = some s.firm) : firm_check s u = Except.ok () := by
  simp [firm_check, hsu, hp, hf]

/-- A non-superuser with a profile and a differing firm fails. -/
theorem firm_check_other_firm (s : PriceSubmission) (u : Actor) (f : Nat)
    (hsu : u.is_superuser = false) (hp : u.has_profile = true)
    (hf : u.firm = some f) (hne : s.firm ≠ f) :
    firm_check s u = Except.error ApprovalError.firmMismatch := by
  simp [firm_check, hsu, hp, hf, hne]

/-- A non-superuser without a set firm fails with the profile error. -/
theorem firm_check_no_firm (s : PriceSubmission) (u : Actor)
    (hsu : u.is_superuser = false) (hf : u.firm = none) :
    firm_check s u = Except.error ApprovalError.profileNotConfigured := by
  cases hp : u.has_profile <;> simp [firm_check, hsu, hp, hf]

/-- A non-superuser passing `can_approve` has a profile and is a
business head. -/
theorem can_approve_nonsuper (s : PriceSubmission) (u : Actor)
    (hsu : u.is_superuser = false) (h : can_approve s u = true) :
    u.has_profile = true ∧ is_business_head u = true := by
  unfold can_approve at h
  rw [hsu] at h
  cases hp : u.has_profile <;> rw [hp] at h <;> simp_all

/-- `can_approve` never reads the submission. -/
theorem can_approve_submission_irrel (s s' : PriceSubmission) (u : Actor) :
    can_approve s u = can_approve s' u := rfl

/-- Shape of a successful `approve_submission`: the returned row is the
input with the approval mutation applied. -/
theorem approve_ok_shape (s : PriceSubmission) (u : Actor) (i n : Nat)
    (ev : Option Nat) (s' : PriceSubmission)
    (h : approve_submission s u i n ev = Except.ok s') :
    s' = { s with
            status := Status.APPROVED
            approved_by := some i
            approved_at := some n
            approval_version := s.approval_version + 1 } := by
  unfold approve_submission at h
  split at h
  · cases h
  · split at h
    · cases h
    · split at h
      · cases h
      · split at h
        · cases h
        · injection h with h
          exact h.symm

/-- Shape of a successful `cancel_approval`. -/
theorem cancel_ok_shape (s : PriceSubmission) (u : Actor)
    (ev : Option Nat) (s' : PriceSubmission)
    (h : cancel_approval s u ev = Except.ok s') :
    s' = { s with
            status := Status.CANCELLED
            approved_by := none
            approved_at := none
            approval_version := s.approval_version + 1 } := by
  unfold cancel_approval at h
  split at h
  · cases h
  · split at h
    · cases h
    · split at h
      · cases h
      · split at h
        · cases h
        · injection h with h
          exact h.symm

/-- Shape of a successful `disapprove_submission`, together with the
conditions it implies. -/
theorem disapprove_ok_shape (s : PriceSubmission) (u : Actor)
    (s' : PriceSubmission)
    (h : disapprove_submission s u = Except.ok s') :
    s' = { s with
            status := Status.PENDING
            approved_by := none
            approved_at := none } ∧
    u.has_profile = true ∧
    (is_admin u = true ∨ is_business_head u = true) ∧
    s.status = Status.APPROVED := by
  unfold disapprove_submission at h
  split at h
  · cases h
  · split at h
    · cases h
    · split at h
      · cases h
      · injection h with h
        refine ⟨h.symm, ?_, ?_, ?_⟩
        · simp_all
        · simp_all [Bool.or_eq_false_iff]
          rcases Bool.eq_false_or_eq_true (is_admin u) with ha | ha <;> simp_all
        · simp_all

/-- A blocked `approve_submission` with every earlier guard passing and
the firm guard failing returns exactly the firm-guard error. -/
theorem approve_firm_error (s : PriceSubmission) (u : Actor) (i n : Nat)
    (ev : Option Nat) (e : ApprovalError)
    (hperm : can_approve s u = true)
    (hver : check_version ev s.approval_version = Except.ok ())
    (hst : s.status ≠ Status.APPROVED)
    (hfc : firm_check s u = Except.error e) :
    approve_submission s u i n ev = Except.error e := by
  simp [approve_submission, hperm, hver, hst, hfc]

/-- A fully enabled `approve_submission` returns the mutated row. -/
theorem approve_ok (s : PriceSubmission) (u : Actor) (i n : Nat)
    (ev : Option Nat)
    (hperm : can_approve s u = true)
    (hver : check_version ev s.approval_version = Except.ok ())
    (hst : s.status ≠ Status.APPROVED)
    (hfc : firm_check s u = Except.ok ()) :
    approve_submission s u i n ev =
      Except.ok { s with
        status := Status.APPROVED
        approved_by := some i
        approved_at := some n
        approval_version := s.approval_version + 1 } := by
  simp [approve_submission, hperm, hver, hst, hfc]

/-- `approve_submission` on an already approved row fails. -/
theorem approve_already (s : PriceSubmission) (u : Actor) (i n : Nat)
    (ev : Option Nat)
    (hperm : can_approve s u = true)
    (hver : check_version ev s.approval_version = Except.ok ())
    (hst : s.status = Status.APPROVED) :
    approve_submission s u i n ev = Except.error ApprovalError.alreadyApproved := by
  simp [approve_submission, hperm, hver, hst]

/-- A fully enabled `cancel_approval` returns the mutated row. -/
theorem cancel_ok (s : PriceSubmission) (u : Actor) (ev : Option Nat)
    (hperm : can_approve s u = true)
    (hver : check_version ev s.approval_version = Except.ok ())
    (hst : s.status = Status.APPROVED)
    (hfc : firm_check s u = Except.ok ()) :
    cancel_approval s u ev =
      Except.ok { s with
        status := Status.CANCELLED
        approved_by := none
        approved_at := none
        approval_version := s.approval_version + 1 } := by
  simp [cancel_approval, hperm, hver, hst, hfc]

/-- `cancel_approval` on a row that is not approved fails. -/
theorem cancel_not_approved (s : PriceSubmission) (u : Actor) (ev : Option Nat)
    (hperm : can_approve s u = true)
    (hver : check_version ev s.approval_version = Except.ok ())
    (hst : s.status ≠ Status.APPROVED) :
    cancel_approval s u ev = Except.error ApprovalError.notApproved := by
  simp [cancel_approval, hperm, hver, hst]

/-- The firm guard passes when the actor is a superuser or, being an
authorized non-superuser, has the matching firm set. -/
theorem firm_check_ok_of_match (s : PriceSubmission) (u : Actor)
    (hperm : can_approve s u = true)
    (hfirm : u.is_superuser = true ∨ u.firm = some s.firm) :
    firm_check s u = Except.ok () := by
  cases hsu : u.is_superuser
  · rcases hfirm with h | h
    · rw [hsu] at h
      cases h
    · exact firm_check_same_firm s u hsu (can_approve_nonsuper s u hsu hperm).1 h
  · exact firm_check_superuser s u hsu

/-- The version guard either passes or the caller supplied a version
differing from the stored one. -/
theorem check_version_cases (ev : Option Nat) (a : Nat) :
    check_version ev a = Except.ok () ∨
    ∃ v, ev = some v ∧ v ≠ a ∧
      check_version ev a = Except.error (ApprovalError.versionConflict v a) := by
  cases ev with
  | none => exact Or.inl rfl
  | some v =>
    by_cases h : a = v
    · subst h
      exact Or.inl (check_version_some_eq a)
    · exact Or.inr ⟨v, rfl, fun hv => h hv.symm, check_version_some_ne v a h⟩

/-- An unauthorized caller is rejected by `approve_submission`. -/
theorem approve_permission_denied (s : PriceSubmission) (u : Actor)
    (i n : Nat) (ev : Option Nat) (h : can_approve s u = false) :
    approve_submission s u i n ev = Except.error ApprovalError.permissionDenied := by
  simp [approve_submission, h]

/-- An unauthorized caller is rejected by `cancel_approval`. -/
theorem cancel_permission_denied (s : PriceSubmission) (u : Actor)
    (ev : Option Nat) (h : can_approve s u = false) :
    cancel_approval s u ev = Except.error ApprovalError.permissionDenied := by
  simp [cancel_approval, h]

/-- A failing version guard is surfaced by `approve_submission`. -/
theorem approve_version_error (s : PriceSubmission) (u : Actor)
    (i n v : Nat) (ev : Option Nat)
    (hperm : can_approve s u = true)
    (hver : check_version ev s.approval_version =
      Except.error (ApprovalError.versionConflict v s.approval_version)) :
    approve_submission s u i n ev =
      Except.error (ApprovalError.versionConflict v s.approval_version) := by
  simp [approve_submission, hperm, hver]

/-- A failing version guard is surfaced by `cancel_approval`. -/
theorem cancel_version_error (s : PriceSubmission) (u : Actor)
    (v : Nat) (ev : Option Nat)
    (hperm : can_approve s u = true)
    (hver : check_version ev s.approval_version =
      Except.error (ApprovalError.versionConflict v s.approval_version)) :
    cancel_approval s u ev =
      Except.error (ApprovalError.versionConflict v s.approval_version) := by
  simp [cancel_approval, hperm, hver]

/-- A blocked `cancel_approval` with every earlier guard passing and
the firm guard failing returns exactly the firm-guard error. -/
theorem cancel_firm_error (s : PriceSubmission) (u : Actor)
    (ev : Option Nat) (e : ApprovalError)
    (hperm : can_approve s u = true)
    (hver : check_version ev s.approval_version = Except.ok ())
    (hst : s.status = Status.APPROVED)
    (hfc : firm_check s u = Except.error e) :
    cancel_approval s u ev = Except.error e := by
  simp [cancel_approval, hperm, hver, hst, hfc]

/-- Exhaustive classification of `approve_submission` outcomes: one of
the four rejection kinds reachable on a found row, or success; the
version conflict only arises from a supplied differing version. -/
theorem approve_error_cases (s : PriceSubmission) (u : Actor)
    (i n : Nat) (ev : Option Nat) :
    approve_submission s u i n ev = Except.error ApprovalError.permissionDenied ∨
    (∃ v, ev = some v ∧ v ≠ s.approval_version ∧
      approve_submission s u i n ev =
        Except.error (ApprovalError.versionConflict v s.approval_version)) ∨
    approve_submission s u i n ev = Except.error ApprovalError.alreadyApproved ∨
    approve_submission s u i n ev = Except.error ApprovalError.firmMismatch ∨
    approve_submission s u i n ev = Except.error ApprovalError.profileNotConfigured ∨
    (∃ s', approve_submission s u i n ev = Except.ok s') := by
  by_cases hperm : can_approve s u = true
  · rcases check_version_cases ev s.approval_version with hcv | ⟨v, hev, hne, hcv⟩
    · by_cases hst : s.status = Status.APPROVED
      · exact Or.inr (Or.inr (Or.inl (approve_already s u i n ev hperm hcv hst)))
      · rcases firm_check_cases s u with hf | hf | hf
        · exact Or.inr (Or.inr (Or.inr (Or.inr (Or.inr
            ⟨_, approve_ok s u i n ev hperm hcv hst hf⟩))))
        · exact Or.inr (Or.inr (Or.inr (Or.inl
            (approve_firm_error s u i n ev _ hperm hcv hst hf))))
        · exact Or.inr (Or.inr (Or.inr (Or.inr (Or.inl
            (approve_firm_error s u i n ev _ hperm hcv hst hf)))))
    · exact Or.inr (Or.inl ⟨v, hev, hne,
        approve_version_error s u i n v ev hperm hcv⟩)
  · have h : can_approve s u = false := by
      revert hperm
      cases can_approve s u <;> simp
    exact Or.inl (approve_permission_denied s u i n ev h)

/-- Exhaustive classification of `cancel_approval` outcomes. -/
theorem cancel_error_cases (s : PriceSubmission) (u : Actor)
    (ev : Option Nat) :
    cancel_approval s u ev = Except.error ApprovalError.permissionDenied ∨
    (∃ v, ev = some v ∧ v ≠ s.approval_version ∧
      cancel_approval s u ev =
        Except.error (ApprovalError.versionConflict v s.approval_version)) ∨
    cancel_approval s u ev = Except.error ApprovalError.notApproved ∨
    cancel_approval s u ev = Except.error ApprovalError.firmMismatch ∨
    cancel_approval s u ev = Except.error ApprovalError.profileNotConfigured ∨
    (∃ s', cancel_approval s u ev = Except.ok s') := by
  by_cases hperm : can_approve s u = true
  · rcases check_version_cases ev s.approval_version with hcv | ⟨v, hev, hne, hcv⟩
    · by_cases hst : s.status = Status.APPROVED
      · rcases firm_check_cases s u with hf | hf | hf
        · exact Or.inr (Or.inr (Or.inr (Or.inr (Or.inr
            ⟨_, cancel_ok s u ev hperm hcv hst hf⟩))))
        · exact Or.inr (Or.inr (Or.inr (Or.inl
            (cancel_firm_error s u ev _ hperm hcv hst hf))))
        · exact Or.inr (Or.inr (Or.inr (Or.inr (Or.inl
            (cancel_firm_error s u ev _ hperm hcv hst hf)))))
      · exact Or.inr (Or.inr (Or.inl (cancel_not_approved s u ev hperm hcv hst)))
    · exact Or.inr (Or.inl ⟨v, hev, hne,
        cancel_version_error s u v ev hperm hcv⟩)
  · have h : can_approve s u = false := by
      revert hperm
      cases can_approve s u <;> simp
    exact Or.inl (cancel_permission_denied s u ev h)

/-! Claim theorems. -/

/-- C1 (counterexample): the claim says `canApprove` returns false for
a business head whose firm differs from the firm of the submission;
`can_approve` in `core/models.py` answers true for a business head of
firm 1 on a submission of firm 2, never consulting the firm. -/
theorem can_approve_cross_firm_counterexample :
    can_approve subPending2 bheadFirm1 = true ∧
    bheadFirm1.is_superuser = false ∧
    is_business_head bheadFirm1 = true ∧
    bheadFirm1.firm ≠ some subPending2.firm := by
  refine ⟨rfl, rfl, rfl, by decide⟩

/-- C1 (amended): `can_approve(submission, actor)` is true iff the
actor is a superuser, or has a profile and is in the `BUSINESS_HEAD`
group; the firms of actor and submission are not compared here (the
firm restriction is enforced later, inside the service calls). -/
theorem can_approve_characterization (s : PriceSubmission) (u : Actor) :
    can_approve s u =
      (u.is_superuser || (u.has_profile && is_business_head u)) := by
  unfold can_approve
  cases u.is_superuser <;> cases hp : u.has_profile <;> simp [hp]

/-- C2: for both `approve_submission` and `cancel_approval`, once the
permission check passes, a supplied expected version differing from
the stored `approval_version` makes the call fail with the
version-conflict error carrying both the expected and the actual
version, leaving the stored row unchanged; with no expected version
supplied, no version check is performed (a version-conflict outcome
is impossible). -/
theorem approve_cancel_version_guard (s : PriceSubmission) (u : Actor)
    (i n v : Nat)
    (hperm : can_approve s u = true) (hv : v ≠ s.approval_version) :
    approve_submission s u i n (some v) =
      Except.error (ApprovalError.versionConflict v s.approval_version) ∧
    stored_after_approve s u i n (some v) = s ∧
    cancel_approval s u (some v) =
      Except.error (ApprovalError.versionConflict v s.approval_version) ∧
    stored_after_cancel s u (some v) = s ∧
    (∀ x y, approve_submission s u i n none ≠
      Except.error (ApprovalError.versionConflict x y)) ∧
    (∀ x y, cancel_approval s u none ≠
      Except.error (ApprovalError.versionConflict x y)) := by
  have hcv := check_version_some_ne v s.approval_version (Ne.symm hv)
  have h1 := approve_version_error s u i n v (some v) hperm hcv
  have h2 := cancel_version_error s u v (some v) hperm hcv
  refine ⟨h1, ?_, h2, ?_, ?_, ?_⟩
  · simp [stored_after_approve, h1]
  · simp [stored_after_cancel, h2]
  · intro x y hcontra
    rcases approve_error_cases s u i n none with h | ⟨w, hev, _, h⟩ | h | h | h | ⟨s', h⟩ <;>
      first
        | (cases hev)
        | (rw [h] at hcontra; simp at hcontra)
  · intro x y hcontra
    rcases cancel_error_cases s u none with h | ⟨w, hev, _, h⟩ | h | h | h | ⟨s', h⟩ <;>
      first
        | (cases hev)
        | (rw [h] at hcontra; simp at hcontra)

/-- C2 (witness): a business head of firm 1 supplies expected version
0 on the approved firm-1 submission at version 3. -/
theorem approve_cancel_version_guard_witness :
    can_approve subApproved1 bheadFirm1 = true ∧
    (0 : Nat) ≠ subApproved1.approval_version ∧
    (approve_submission subApproved1 bheadFirm1 1 2 (some 0) =
      Except.error (ApprovalError.versionConflict 0 subApproved1.approval_version) ∧
    stored_after_approve subApproved1 bheadFirm1 1 2 (some 0) = subApproved1 ∧
    cancel_approval subApproved1 bheadFirm1 (some 0) =
      Except.error (ApprovalError.versionConflict 0 subApproved1.approval_version) ∧
    stored_after_cancel subApproved1 bheadFirm1 (some 0) = subApproved1 ∧
    (∀ x y, approve_submission subApproved1 bheadFirm1 1 2 none ≠
      Except.error (ApprovalError.versionConflict x y)) ∧
    (∀ x y, cancel_approval subApproved1 bheadFirm1 none ≠
      Except.error (ApprovalError.versionConflict x y))) :=
  ⟨rfl, by decide,
    approve_cancel_version_guard subApproved1 bheadFirm1 1 2 0 rfl (by decide)⟩

/-- C3: over the three state-machine operations, every successful
`approve_submission` or `cancel_approval` raises `approval_version`
by exactly 1, and a successful `disapprove_submission` leaves it
unchanged. -/
theorem approval_version_step (s s' : PriceSubmission) :
    (∀ a i n ev, run_op s (Op.approveOp a i n ev) = some s' →
      s'.approval_version = s.approval_version + 1) ∧
    (∀ a ev, run_op s (Op.cancelOp a ev) = some s' →
      s'.approval_version = s.approval_version + 1) ∧
    (∀ a, run_op s (Op.disapproveOp a) = some s' →
      s'.approval_version = s.approval_version) := by
  refine ⟨?_, ?_, ?_⟩
  · intro a i n ev h
    simp only [run_op, Except.toOption] at h
    rcases hres : approve_submission s a i n ev with e | t <;> rw [hres] at h
    · cases h
    · injection h with h
      subst h
      rw [approve_ok_shape s a i n ev t hres]
  · intro a ev h
    simp only [run_op, Except.toOption] at h
    rcases hres : cancel_approval s a ev with e | t <;> rw [hres] at h
    · cases h
    · injection h with h
      subst h
      rw [cancel_ok_shape s a ev t hres]
  · intro a h
    simp only [run_op, Except.toOption] at h
    rcases hres : disapprove_submission s a with e | t <;> rw [hres] at h
    · cases h
    · injection h with h
      subst h
      rw [(disapprove_ok_shape s a t hres).1]

/-- C3 (witness): a superuser approves the pending firm-1 submission
at version 0 and the stored version becomes 1. -/
theorem approval_version_step_witness :
    run_op subPending1 (Op.approveOp superuserAdmin 5 10 none) =
      some subPending1Approved ∧
    subPending1Approved.approval_version = subPending1.approval_version + 1 :=
  ⟨rfl, (approval_version_step subPending1 subPending1Approved).1
    superuserAdmin 5 10 none rfl⟩

/-- C4 (counterexample): the claim says an authorized non-superuser
business head with no firm set is rejected with the firm-mismatch
error; the code rejects such an actor with the distinct message
`User profile not properly configured` instead. -/
theorem approve_unset_firm_counterexample :
    can_approve subPending2 bheadNoFirm = true ∧
    bheadNoFirm.is_superuser = false ∧
    bheadNoFirm.firm = none ∧
    subPending2.status ≠ Status.APPROVED ∧
    approve_submission subPending2 bheadNoFirm 4 20 none =
      Except.error ApprovalError.profileNotConfigured ∧
    ApprovalError.profileNotConfigured ≠ ApprovalError.firmMismatch := by
  refine ⟨rfl, rfl, rfl, by decide, rfl, by decide⟩

/-- C4 (amended): for a non-superuser passing the role check, the
version check and the status check, `approve_submission` rejects a
set-but-different firm with the firm-mismatch error and an unset firm
with the profile-configuration error; in both cases the stored row is
unchanged. -/
theorem approve_firm_guard (s : PriceSubmission) (u : Actor) (i n : Nat)
    (ev : Option Nat)
    (hsu : u.is_superuser = false) (hperm : can_approve s u = true)
    (hev : ev = none ∨ ev = some s.approval_version)
    (hst : s.status ≠ Status.APPROVED) :
    (u.firm = none →
      approve_submission s u i n ev =
        Except.error ApprovalError.profileNotConfigured ∧
      stored_after_approve s u i n ev = s) ∧
    (∀ f, u.firm = some f → s.firm ≠ f →
      approve_submission s u i n ev =
        Except.error ApprovalError.firmMismatch ∧
      stored_after_approve s u i n ev = s) := by
  have hver : check_version ev s.approval_version = Except.ok () := by
    rcases hev with h | h <;> subst h
    · exact check_version_none s.approval_version
    · exact check_version_some_eq s.approval_version
  constructor
  · intro hf
    have h := approve_firm_error s u i n ev ApprovalError.profileNotConfigured
      hperm hver hst (firm_check_no_firm s u hsu hf)
    exact ⟨h, by simp [stored_after_approve, h]⟩
  · intro f hf hne
    have hp := (can_approve_nonsuper s u hsu hperm).1
    have h := approve_firm_error s u i n ev ApprovalError.firmMismatch
      hperm hver hst (firm_check_other_firm s u f hsu hp hf hne)
    exact ⟨h, by simp [stored_after_approve, h]⟩

/-- C4 (witness): a firm-1 business head on the pending firm-2
submission is rejected with the firm-mismatch error; the unset-firm
side is exercised by the dedicated counterexample. -/
theorem approve_firm_guard_witness :
    bheadFirm1.is_superuser = false ∧
    can_approve subPending2 bheadFirm1 = true ∧
    (none = (none : Option Nat) ∨
      (none : Option Nat) = some subPending2.approval_version) ∧
    subPending2.status ≠ Status.APPROVED ∧
    ((bheadFirm1.firm = none →
      approve_submission subPending2 bheadFirm1 4 20 none =
        Except.error ApprovalError.profileNotConfigured ∧
      stored_after_approve subPending2 bheadFirm1 4 20 none = subPending2) ∧
    (∀ f, bheadFirm1.firm = some f → subPending2.firm ≠ f →
      approve_submission subPending2 bheadFirm1 4 20 none =
        Except.error ApprovalError.firmMismatch ∧
      stored_after_approve subPending2 bheadFirm1 4 20 none = subPending2)) :=
  ⟨rfl, rfl, Or.inl rfl, by decide,
    approve_firm_guard subPending2 bheadFirm1 4 20 none rfl rfl (Or.inl rfl)
      (by decide)⟩

/-- C5: whenever `approve_submission` or `cancel_approval` returns an
error, the stored row keeps its status, approver, approval timestamp
and approval version: the transaction mutates only after every check
has passed. -/
theorem error_leaves_submission_unchanged (s : PriceSubmission) (u : Actor)
    (i n : Nat) (ev : Option Nat) (e : ApprovalError) :
    (approve_submission s u i n ev = Except.error e →
      (stored_after_approve s u i n ev).status = s.status ∧
      (stored_after_approve s u i n ev).approved_by = s.approved_by ∧
      (stored_after_approve s u i n ev).approved_at = s.approved_at ∧
      (stored_after_approve s u i n ev).approval_version = s.approval_version) ∧
    (cancel_approval s u ev = Except.error e →
      (stored_after_cancel s u ev).status = s.status ∧
      (stored_after_cancel s u ev).approved_by = s.approved_by ∧
      (stored_after_cancel s u ev).approved_at = s.approved_at ∧
      (stored_after_cancel s u ev).approval_version = s.approval_version) := by
  constructor
  · intro h
    simp [stored_after_approve, h]
  · intro h
    simp [stored_after_cancel, h]

/-- C5 (witness): a buyer without a role group is rejected by both
calls with the permission error and the row stays intact. -/
theorem error_leaves_submission_unchanged_witness :
    approve_submission subPending1 buyerOnly 3 10 none =
      Except.error ApprovalError.permissionDenied ∧
    cancel_approval subPending1 buyerOnly none =
      Except.error ApprovalError.permissionDenied ∧
    ((stored_after_approve subPending1 buyerOnly 3 10 none).status =
        subPending1.status ∧
      (stored_after_approve subPending1 buyerOnly 3 10 none).approved_by =
        subPending1.approved_by ∧
      (stored_after_approve subPending1 buyerOnly 3 10 none).approved_at =
        subPending1.approved_at ∧
      (stored_after_approve subPending1 buyerOnly 3 10 none).approval_version =
        subPending1.approval_version) ∧
    ((stored_after_cancel subPending1 buyerOnly none).status =
        subPending1.status ∧
      (stored_after_cancel subPending1 buyerOnly none).approved_by =
        subPending1.approved_by ∧
      (stored_after_cancel subPending1 buyerOnly none).approved_at =
        subPending1.approved_at ∧
      (stored_after_cancel subPending1 buyerOnly none).approval_version =
        subPending1.approval_version) :=
  ⟨rfl, rfl,
    (error_leaves_submission_unchanged subPending1 buyerOnly 3 10 none
      ApprovalError.permissionDenied).1 rfl,
    (error_leaves_submission_unchanged subPending1 buyerOnly 3 10 none
      ApprovalError.permissionDenied).2 rfl⟩

/-- C6: starting from a PENDING submission, an authorized actor whose
firm matches (or a superuser) calling `approve_submission` twice with
no expected version gets success then the already-approved error, and
`approval_version` rises by exactly 1 in total. -/
theorem approve_twice_idempotent_rejection (s : PriceSubmission) (u : Actor)
    (i1 n1 i2 n2 : Nat)
    (hst : s.status = Status.PENDING)
    (hperm : can_approve s u = true)
    (hfirm : u.is_superuser = true ∨ u.firm = some s.firm) :
    ∃ s', approve_submission s u i1 n1 none = Except.ok s' ∧
      s'.status = Status.APPROVED ∧
      s'.approval_version = s.approval_version + 1 ∧
      approve_submission s' u i2 n2 none =
        Except.error ApprovalError.alreadyApproved ∧
      stored_after_approve s' u i2 n2 none = s' := by
  have hst' : s.status ≠ Status.APPROVED := by simp [hst]
  have hfc := firm_check_ok_of_match s u hperm hfirm
  have h1 := approve_ok s u i1 n1 none hperm (check_version_none _) hst' hfc
  have h2 := approve_already
    ({ s with
      status := Status.APPROVED
      approved_by := some i1
      approved_at := some n1
      approval_version := s.approval_version + 1 })
    u i2 n2 none hperm (check_version_none _) rfl
  exact ⟨_, h1, rfl, rfl, h2, by simp [stored_after_approve, h2]⟩

/-- C6 (witness): a firm-1 business head approves the pending firm-1
submission twice. -/
theorem approve_twice_idempotent_rejection_witness :
    subPending1.status = Status.PENDING ∧
    can_approve subPending1 bheadFirm1 = true ∧
    (bheadFirm1.is_superuser = true ∨
      bheadFirm1.firm = some subPending1.firm) ∧
    (∃ s', approve_submission subPending1 bheadFirm1 5 10 none =
        Except.ok s' ∧
      s'.status = Status.APPROVED ∧
      s'.approval_version = subPending1.approval_version + 1 ∧
      approve_submission s' bheadFirm1 6 11 none =
        Except.error ApprovalError.alreadyApproved ∧
      stored_after_approve s' bheadFirm1 6 11 none = s') :=
  ⟨rfl, rfl, Or.inr rfl,
    approve_twice_idempotent_rejection subPending1 bheadFirm1 5 10 6 11
      rfl rfl (Or.inr rfl)⟩

/-- C7: with the permission and version guards passing,
`cancel_approval` fails with the not-approved error on every
submission that is not APPROVED (PENDING and CANCELLED alike) leaving
the row unchanged; on an APPROVED submission with the firm guard also
passing it stores CANCELLED, clears the approver and timestamp and
raises `approval_version` by 1. -/
theorem cancel_approval_spec (s : PriceSubmission) (u : Actor)
    (ev : Option Nat)
    (hperm : can_approve s u = true)
    (hev : ev = none ∨ ev = some s.approval_version) :
    (s.status ≠ Status.APPROVED →
      cancel_approval s u ev = Except.error ApprovalError.notApproved ∧
      stored_after_cancel s u ev = s) ∧
    (s.status = Status.APPROVED →
      (u.is_superuser = true ∨ u.firm = some s.firm) →
      cancel_approval s u ev = Except.ok { s with
        status := Status.CANCELLED
        approved_by := none
        approved_at := none
        approval_version := s.approval_version + 1 }) := by
  have hver : check_version ev s.approval_version = Except.ok () := by
    rcases hev with h | h <;> subst h
    · exact check_version_none s.approval_version
    · exact check_version_some_eq s.approval_version
  constructor
  · intro hst
    have h := cancel_not_approved s u ev hperm hver hst
    exact ⟨h, by simp [stored_after_cancel, h]⟩
  · intro hst hfirm
    exact cancel_ok s u ev hperm hver hst (firm_check_ok_of_match s u hperm hfirm)

/-- C7 (witness): cancellation succeeds on the approved firm-1
submission at the matching expected version 3, and fails with the
not-approved error on the pending one. -/
theorem cancel_approval_spec_witness :
    can_approve subApproved1 bheadFirm1 = true ∧
    (some 3 = (none : Option Nat) ∨
      some 3 = some subApproved1.approval_version) ∧
    ((subApproved1.status ≠ Status.APPROVED →
      cancel_approval subApproved1 bheadFirm1 (some 3) =
        Except.error ApprovalError.notApproved ∧
      stored_after_cancel subApproved1 bheadFirm1 (some 3) = subApproved1) ∧
    (subApproved1.status = Status.APPROVED →
      (bheadFirm1.is_superuser = true ∨
        bheadFirm1.firm = some subApproved1.firm) →
      cancel_approval subApproved1 bheadFirm1 (some 3) =
        Except.ok { subApproved1 with
          status := Status.CANCELLED
          approved_by := none
          approved_at := none
          approval_version := subApproved1.approval_version + 1 })) ∧
    cancel_approval subPending1 bheadFirm1 none =
      Except.error ApprovalError.notApproved :=
  ⟨rfl, Or.inr rfl,
    cancel_approval_spec subApproved1 bheadFirm1 (some 3) rfl (Or.inr rfl),
    ((cancel_approval_spec subPending1 bheadFirm1 none rfl (Or.inl rfl)).1
      (by decide)).1⟩

/-- C8: a CANCELLED submission is re-approvable: with the permission
guard passing, the firm matching (or a superuser) and a correct or
omitted expected version, `approve_submission` succeeds and stores
APPROVED. -/
theorem reapprove_cancelled (s : PriceSubmission) (u : Actor) (i n : Nat)
    (ev : Option Nat)
    (hst : s.status = Status.CANCELLED)
    (hperm : can_approve s u = true)
    (hfirm : u.is_superuser = true ∨ u.firm = some s.firm)
    (hev : ev = none ∨ ev = some s.approval_version) :
    approve_submission s u i n ev = Except.ok { s with
      status := Status.APPROVED
      approved_by := some i
      approved_at := some n
      approval_version := s.approval_version + 1 } := by
  have hver : check_version ev s.approval_version = Except.ok () := by
    rcases hev with h | h <;> subst h
    · exact check_version_none s.approval_version
    · exact check_version_some_eq s.approval_version
  have hst' : s.status ≠ Status.APPROVED := by simp [hst]
  exact approve_ok s u i n ev hperm hver hst'
    (firm_check_ok_of_match s u hperm hfirm)

/-- C8 (witness): the firm-1 business head re-approves the cancelled
firm-1 submission at the matching expected version 2. -/
theorem reapprove_cancelled_witness :
    subCancelled1.status = Status.CANCELLED ∧
    can_approve subCancelled1 bheadFirm1 = true ∧
    (bheadFirm1.is_superuser = true ∨
      bheadFirm1.firm = some subCancelled1.firm) ∧
    (some 2 = (none : Option Nat) ∨
      some 2 = some subCancelled1.approval_version) ∧
    approve_submission subCancelled1 bheadFirm1 7 30 (some 2) =
      Except.ok { subCancelled1 with
        status := Status.APPROVED
        approved_by := some 7
        approved_at := some 30
        approval_version := subCancelled1.approval_version + 1 } :=
  ⟨rfl, rfl, Or.inr rfl, Or.inr rfl,
    reapprove_cancelled subCancelled1 bheadFirm1 7 30 (some 2) rfl rfl
      (Or.inr rfl) (Or.inr rfl)⟩

/-- C9 (counterexample): the claim limits a successful disapprove to
superusers and business heads; the view also lets a plain
`ADMIN`-group member (neither superuser nor business head) disapprove
an approved submission. -/
theorem disapprove_admin_group_counterexample :
    adminGroupOnly.is_superuser = false ∧
    is_business_head adminGroupOnly = false ∧
    disapprove_submission subApproved1 adminGroupOnly =
      Except.ok { subApproved1 with
        status := Status.PENDING
        approved_by := none
        approved_at := none } := by
  refine ⟨rfl, rfl, rfl⟩

/-- C9 (amended): `disapprove_submission` succeeds exactly when the
actor has a profile, passes `is_admin() or is_business_head()` (so
superusers, `ADMIN`-group members and business heads, with no firm
comparison) and the submission is APPROVED; on success it stores
PENDING, clears the approver and timestamp and leaves
`approval_version` untouched; on any error the row is unchanged. -/
theorem disapprove_spec (s : PriceSubmission) (u : Actor) :
    (∀ s', disapprove_submission s u = Except.ok s' →
      u.has_profile = true ∧
      (is_admin u = true ∨ is_business_head u = true) ∧
      s.status = Status.APPROVED ∧
      s'.status = Status.PENDING ∧
      s'.approved_by = none ∧
      s'.approved_at = none ∧
      s'.approval_version = s.approval_version) ∧
    (u.has_profile = true →
      (is_admin u = true ∨ is_business_head u = true) →
      s.status = Status.APPROVED →
      disapprove_submission s u = Except.ok { s with
        status := Status.PENDING
        approved_by := none
        approved_at := none }) ∧
    (∀ e, disapprove_submission s u = Except.error e →
      stored_after_disapprove s u = s) := by
  refine ⟨?_, ?_, ?_⟩
  · intro s' h
    obtain ⟨hshape, hp, hrole, hst⟩ := disapprove_ok_shape s u s' h
    subst hshape
    exact ⟨hp, hrole, hst, rfl, rfl, rfl, rfl⟩
  · intro hp hrole hst
    rcases hrole with h | h <;> simp [disapprove_submission, hp, h, hst]
  · intro e h
    simp [stored_after_disapprove, h]

/-- C9 (witness): the firm-1 business head disapproves the approved
submission; the stored row goes back to PENDING at the same version.
-/
theorem disapprove_spec_witness :
    disapprove_submission subApproved1 bheadFirm1 =
      Except.ok { subApproved1 with
        status := Status.PENDING
        approved_by := none
        approved_at := none } ∧
    ((∀ s', disapprove_submission subApproved1 bheadFirm1 = Except.ok s' →
      bheadFirm1.has_profile = true ∧
      (is_admin bheadFirm1 = true ∨ is_business_head bheadFirm1 = true) ∧
      subApproved1.status = Status.APPROVED ∧
      s'.status = Status.PENDING ∧
      s'.approved_by = none ∧
      s'.approved_at = none ∧
      s'.approval_version = subApproved1.approval_version) ∧
    (bheadFirm1.has_profile = true →
      (is_admin bheadFirm1 = true ∨ is_business_head bheadFirm1 = true) →
      subApproved1.status = Status.APPROVED →
      disapprove_submission subApproved1 bheadFirm1 =
        Except.ok { subApproved1 with
          status := Status.PENDING
          approved_by := none
          approved_at := none }) ∧
    (∀ e, disapprove_submission subApproved1 bheadFirm1 = Except.error e →
      stored_after_disapprove subApproved1 bheadFirm1 = subApproved1)) :=
  ⟨rfl, disapprove_spec subApproved1 bheadFirm1⟩

/-- C10 (counterexample): the claim promises every superuser all
PENDING submissions; a superuser without a profile row receives the
empty sequence instead. -/
theorem get_approvable_no_profile_counterexample :
    superuserNoProfile.is_superuser = true ∧
    subPending1.status = Status.PENDING ∧
    get_approvable_submissions [subPending1] superuserNoProfile = [] :=
  ⟨rfl, rfl, rfl⟩

/-- C10 (amended): `get_approvable_submissions` returns the empty
sequence for any actor without a profile row; otherwise superusers
and admins get exactly the PENDING submissions; otherwise a business
head with a firm gets exactly the PENDING submissions of that firm;
every other actor gets the empty sequence. -/
theorem get_approvable_submissions_spec (db : List PriceSubmission)
    (u : Actor) :
    (u.has_profile = false → get_approvable_submissions db u = []) ∧
    (u.has_profile = true → is_admin u = true →
      ∀ x, x ∈ get_approvable_submissions db u ↔
        (x ∈ db ∧ x.status = Status.PENDING)) ∧
    (u.has_profile = true → is_admin u = false → is_business_head u = true →
      ∀ f, u.firm = some f →
        ∀ x, x ∈ get_approvable_submissions db u ↔
          (x ∈ db ∧ x.status = Status.PENDING ∧ x.firm = f)) ∧
    (u.has_profile = true → is_admin u = false →
      (is_business_head u = false ∨ u.firm = none) →
      get_approvable_submissions db u = []) := by
  refine ⟨?_, ?_, ?_, ?_⟩
  · intro hp
    simp [get_approvable_submissions, hp]
  · intro hp ha x
    simp [get_approvable_submissions, hp, ha, List.mem_filter]
  · intro hp ha hbh f hf x
    have hsu : u.is_superuser = false := by
      revert ha
      unfold is_admin
      cases u.is_superuser <;> simp
    have hag : u.admin_group = false := by
      revert ha
      unfold is_admin
      cases u.admin_group <;> simp
    simp [get_approvable_submissions, hp, is_admin, hsu, hag, hbh, hf,
      List.mem_filter, and_assoc]
  · intro hp ha hrest
    have hsu : u.is_superuser = false := by
      revert ha
      unfold is_admin
      cases u.is_superuser <;> simp
    have hag : u.admin_group = false := by
      revert ha
      unfold is_admin
      cases u.admin_group <;> simp
    rcases hrest with hbh | hf
    · simp [get_approvable_submissions, hp, is_admin, hsu, hag, hbh]
    · cases hbh : is_business_head u
      · simp [get_approvable_submissions, hp, is_admin, hsu, hag, hbh]
      · simp [get_approvable_submissions, hp, is_admin, hsu, hag, hbh, hf]

/-- C10 (witness): the firm-1 business head sees exactly the pending
firm-1 submission out of a three-element store. -/
theorem get_approvable_submissions_spec_witness :
    get_approvable_submissions [subPending1, subPending2, subApproved1]
      bheadFirm1 = [subPending1] ∧
    bheadFirm1.has_profile = true ∧
    is_admin bheadFirm1 = false ∧
    is_business_head bheadFirm1 = true ∧
    bheadFirm1.firm = some 1 ∧
    (∀ x, x ∈ get_approvable_submissions
        [subPending1, subPending2, subApproved1] bheadFirm1 ↔
      (x ∈ [subPending1, subPending2, subApproved1] ∧
        x.status = Status.PENDING ∧ x.firm = 1)) :=
  ⟨rfl, rfl, rfl, rfl, rfl,
    (get_approvable_submissions_spec
      [subPending1, subPending2, subApproved1] bheadFirm1).2.2.1
      rfl rfl rfl 1 rfl⟩

end Agro
